import Mathlib

/-!
Shallow embedding of winterfell's out-of-domain evaluation frame
(`common/src/proof/ood_frame.rs`) together with the external field-element
capability it consumes. Byte vectors are modelled as `List Nat`, fallible
operations return `Except`/`Option`, and the `assert!`-guarded updaters
return `none` where the Rust code would halt on a broken invariant.
-/

/-- Modelled from the spec: `EvaluationFrame` (declared in the common crate,
not under `src/`) is a pair of ordered sequences of field values: `current`
holds the evaluations at the out-of-domain point z, `next` the evaluations at
the shifted point z·g. -/
structure EvaluationFrame (E : Type) where
  current : List E
  next : List E
deriving DecidableEq

/-- Modelled from the spec: `ProofSerializationError` (crate::errors, not under
`src/`) with the three deterministic parse failures of the error taxonomy:
a region that could not be decoded (carrying the decode failure description),
and the two element-count mismatches carrying (expected, actual). -/
inductive ProofSerializationError where
  | FailedToParseOodFrame (detail : String)
  | WrongNumberOfOodTraceElements (expected actual : Nat)
  | WrongNumberOfOodEvaluationElements (expected actual : Nat)
deriving DecidableEq

/-- Modelled from the spec: the external field-element capability consumed by
the OOD frame. Each element has a fixed-width canonical byte encoding of
`ELEMENT_BYTES` bytes (`to_canonical_bytes`), and a per-element canonical
decoder that accepts exactly the canonical byte patterns, so decoding the
canonical encoding of an element yields that element back. -/
structure FieldCaps (E : Type) where
  ELEMENT_BYTES : Nat
  ELEMENT_BYTES_pos : 0 < ELEMENT_BYTES
  toCanonicalBytes : E → List Nat
  fromCanonicalBytes : List Nat → Option E
  toCanonicalBytes_length : ∀ e : E, (toCanonicalBytes e).length = ELEMENT_BYTES
  fromCanonicalBytes_toCanonicalBytes :
    ∀ e : E, fromCanonicalBytes (toCanonicalBytes e) = some e

/-- Chunk-accumulating reader: gathers bytes into `chunk`; when a chunk reaches
`ELEMENT_BYTES` bytes it is decoded canonically; a trailing partial chunk means
the total byte length was not a multiple of `ELEMENT_BYTES`. -/
def readElementsAux {E : Type} (F : FieldCaps E) (chunk : List Nat) :
    List Nat → Except String (List E)
  | [] => if chunk = [] then Except.ok [] else Except.error "wrong number of bytes"
  | b :: rest =>
    if (chunk ++ [b]).length = F.ELEMENT_BYTES then
      match F.fromCanonicalBytes (chunk ++ [b]) with
      | none => Except.error "invalid field element bytes"
      | some e =>
        match readElementsAux F [] rest with
        | Except.ok es => Except.ok (e :: es)
        | Except.error msg => Except.error msg
    else readElementsAux F (chunk ++ [b]) rest

/-- Modelled from the spec: `math::utils::read_elements_into_vec` (math crate,
not under `src/`): decodes a byte sequence into field elements using the
canonical decoding, failing if the total byte length is not a multiple of
`ELEMENT_BYTES` or if some chunk is not a canonical encoding. -/
def read_elements_into_vec {E : Type} (F : FieldCaps E) (bytes : List Nat) :
    Except String (List E) :=
  readElementsAux F [] bytes

/-- Embedding of the helper `elements_to_canonical_bytes`: canonically encodes
each element in order and concatenates the encodings. -/
def elements_to_canonical_bytes {E : Type} (F : FieldCaps E) : List E → List Nat
  | [] => []
  | e :: rest => F.toCanonicalBytes e ++ elements_to_canonical_bytes F rest

/-- Embedding of `OodFrame`: three opaque byte sequences. -/
structure OodFrame where
  trace_at_z1 : List Nat
  trace_at_z2 : List Nat
  evaluations : List Nat
deriving DecidableEq

/-- Embedding of `OodFrame::new`. -/
def OodFrame.new {E : Type} (F : FieldCaps E) (frame : EvaluationFrame E)
    (evaluations : List E) : OodFrame :=
  { trace_at_z1 := elements_to_canonical_bytes F frame.current
    trace_at_z2 := elements_to_canonical_bytes F frame.next
    evaluations := elements_to_canonical_bytes F evaluations }

/-- Embedding of `OodFrame::set_evaluation_frame`; the two `assert!` guards
become the `none` branches. -/
def OodFrame.set_evaluation_frame {E : Type} (F : FieldCaps E) (self : OodFrame)
    (frame : EvaluationFrame E) : Option OodFrame :=
  if self.trace_at_z1 = [] then
    if self.trace_at_z2 = [] then
      some { self with
               trace_at_z1 := elements_to_canonical_bytes F frame.current
               trace_at_z2 := elements_to_canonical_bytes F frame.next }
    else none
  else none

/-- Embedding of `OodFrame::set_constraint_evaluations`; the `assert!` guard
becomes the `none` branch. -/
def OodFrame.set_constraint_evaluations {E : Type} (F : FieldCaps E)
    (self : OodFrame) (evaluations : List E) : Option OodFrame :=
  if self.evaluations = [] then
    some { self with evaluations := elements_to_canonical_bytes F evaluations }
  else none

/-- Embedding of `OodFrame::parse`. -/
def OodFrame.parse {E : Type} (F : FieldCaps E) (self : OodFrame)
    (trace_width num_evaluations : Nat) :
    Except ProofSerializationError (EvaluationFrame E × List E) :=
  match read_elements_into_vec F self.trace_at_z1 with
  | Except.error err =>
      Except.error (ProofSerializationError.FailedToParseOodFrame err)
  | Except.ok current =>
    if current.length ≠ trace_width then
      Except.error
        (ProofSerializationError.WrongNumberOfOodTraceElements trace_width
          current.length)
    else
      match read_elements_into_vec F self.trace_at_z2 with
      | Except.error err =>
          Except.error (ProofSerializationError.FailedToParseOodFrame err)
      | Except.ok next =>
        if next.length ≠ trace_width then
          Except.error
            (ProofSerializationError.WrongNumberOfOodTraceElements trace_width
              next.length)
        else
          match read_elements_into_vec F self.evaluations with
          | Except.error err =>
              Except.error (ProofSerializationError.FailedToParseOodFrame err)
          | Except.ok evaluations =>
            if evaluations.length ≠ num_evaluations then
              Except.error
                (ProofSerializationError.WrongNumberOfOodEvaluationElements
                  num_evaluations evaluations.length)
            else Except.ok ({ current := current, next := next }, evaluations)

/-- Rust's `Vec::extend_from_slice`, as list append with explicit state. -/
def extend_from_slice (target slice : List Nat) : List Nat :=
  target ++ slice

/-- Embedding of `OodFrame::write_into`: three successive appends to the
mutable target, modelled by explicit state passing. -/
def OodFrame.write_into (self : OodFrame) (target : List Nat) : List Nat :=
  let target := extend_from_slice target self.trace_at_z1
  let target := extend_from_slice target self.trace_at_z2
  extend_from_slice target self.evaluations

/-- Embedding of `impl Default for OodFrame`: all three byte sequences empty. -/
def OodFrame.default : OodFrame :=
  { trace_at_z1 := [], trace_at_z2 := [], evaluations := [] }

/-- A concrete instantiation of the field capability: the prime field with 17
elements, encoded as two little-endian bytes. Decoding accepts exactly the
canonical patterns (low byte below 17, high byte zero). -/
def toyField : FieldCaps (Fin 17) where
  ELEMENT_BYTES := 2
  ELEMENT_BYTES_pos := by decide
  toCanonicalBytes e := [e.val % 256, e.val / 256]
  fromCanonicalBytes bs :=
    match bs with
    | [a, b] => if h : a < 17 ∧ b = 0 then some ⟨a, h.1⟩ else none
    | _ => none
  toCanonicalBytes_length := by intro e; rfl
  fromCanonicalBytes_toCanonicalBytes := by decide

-- HELPER LEMMAS
-- =============================================================================

/-- Encoding a list of elements yields one fixed-width block per element. -/
theorem elements_to_canonical_bytes_length {E : Type} (F : FieldCaps E)
    (es : List E) :
    (elements_to_canonical_bytes F es).length = es.length * F.ELEMENT_BYTES := by
  induction es with
  | nil => simp [elements_to_canonical_bytes]
  | cons e rest ih =>
    simp only [elements_to_canonical_bytes, List.length_append, ih,
      F.toCanonicalBytes_length, List.length_cons, Nat.succ_mul]
    ring

/-- The encoding of a nonempty element list is a nonempty byte list. -/
theorem elements_to_canonical_bytes_ne_nil {E : Type} (F : FieldCaps E)
    (es : List E) (h : es ≠ []) : elements_to_canonical_bytes F es ≠ [] := by
  intro hh
  have h1 := elements_to_canonical_bytes_length F es
  rw [hh] at h1
  simp only [List.length_nil] at h1
  have h2 : 0 < es.length := List.length_pos.mpr h
  have h3 := F.ELEMENT_BYTES_pos
  exact Nat.ne_of_gt (Nat.mul_pos h2 h3) h1.symm

/-- Feeding the reader a byte sequence that completes the pending chunk into
the canonical encoding of `e` consumes exactly that chunk and conses `e`. -/
theorem readElementsAux_complete {E : Type} (F : FieldCaps E) (e : E) :
    ∀ (bs c tail : List Nat), c ++ bs = F.toCanonicalBytes e → bs ≠ [] →
      readElementsAux F c (bs ++ tail) =
        match readElementsAux F [] tail with
        | Except.ok es => Except.ok (e :: es)
        | Except.error msg => Except.error msg := by
  intro bs
  induction bs with
  | nil => intro c tail h hne; exact absurd rfl hne
  | cons b bs ih =>
    intro c tail h hne
    show readElementsAux F c (b :: (bs ++ tail)) = _
    by_cases hlen : (c ++ [b]).length = F.ELEMENT_BYTES
    · have hbs : bs = [] := by
        have h1 : (c ++ b :: bs).length = (F.toCanonicalBytes e).length := by
          rw [h]
        rw [F.toCanonicalBytes_length] at h1
        simp only [List.length_append, List.length_cons] at h1
        simp only [List.length_append, List.length_cons, List.length_nil] at hlen
        have : bs.length = 0 := by omega
        exact List.length_eq_zero.mp this
      subst hbs
      have hc : c ++ [b] = F.toCanonicalBytes e := by simpa using h
      simp only [readElementsAux, hc, F.toCanonicalBytes_length, if_true,
        eq_self_iff_true, F.fromCanonicalBytes_toCanonicalBytes,
        List.nil_append]
    · have hcb : (c ++ [b]) ++ bs = F.toCanonicalBytes e := by
        simpa [List.append_assoc] using h
      have hbs' : bs ≠ [] := by
        intro hb
        subst hb
        apply hlen
        have h2 := congrArg List.length hcb
        rw [F.toCanonicalBytes_length] at h2
        simpa using h2
      simp only [readElementsAux, hlen, if_false]
      exact ih (c ++ [b]) tail hcb hbs'

/-- Decoding the canonical encoding of a list of elements recovers the list. -/
theorem read_elements_into_vec_enc {E : Type} (F : FieldCaps E) (es : List E) :
    read_elements_into_vec F (elements_to_canonical_bytes F es) =
      Except.ok es := by
  induction es with
  | nil => rfl
  | cons e rest ih =>
    have hne : F.toCanonicalBytes e ≠ [] := by
      intro hh
      have h1 := F.toCanonicalBytes_length e
      rw [hh] at h1
      have h2 := F.ELEMENT_BYTES_pos
      simp only [List.length_nil] at h1
      omega
    show readElementsAux F []
        (F.toCanonicalBytes e ++ elements_to_canonical_bytes F rest) = _
    rw [readElementsAux_complete F e (F.toCanonicalBytes e) []
      (elements_to_canonical_bytes F rest) (by simp) hne]
    have ih' : readElementsAux F [] (elements_to_canonical_bytes F rest) =
        Except.ok rest := ih
    rw [ih']

/-- The encoding loop equals the in-order concatenation of the per-element
canonical encodings. -/
theorem elements_to_canonical_bytes_eq_join {E : Type} (F : FieldCaps E)
    (es : List E) :
    elements_to_canonical_bytes F es = (es.map F.toCanonicalBytes).flatten := by
  induction es with
  | nil => rfl
  | cons e rest ih => simp [elements_to_canonical_bytes, ih]

-- CLAIM THEOREMS
-- =============================================================================

/-- Claim C1: round-trip — for every EvaluationFrame whose current and next
sequences each have length w and every evaluations sequence of length n,
OodFrame.new followed by parse w n returns exactly the original pair, with
every field element equal to the original. -/
theorem parse_new_roundtrip {E : Type} (F : FieldCaps E) (f : EvaluationFrame E)
    (e : List E) (w n : Nat) (h1 : f.current.length = w)
    (h2 : f.next.length = w) (h3 : e.length = n) :
    OodFrame.parse F (OodFrame.new F f e) w n = Except.ok (f, e) := by
  simp [OodFrame.parse, OodFrame.new, read_elements_into_vec_enc, h1, h2, h3]

/-- Witness for C1 at a concrete input over the toy field. -/
theorem parse_new_roundtrip_witness :
    OodFrame.parse toyField
        (OodFrame.new toyField (EvaluationFrame.mk [(3 : Fin 17), 5] [7, 11])
          [1, 2, 9]) 2 3
      = Except.ok (EvaluationFrame.mk [(3 : Fin 17), 5] [7, 11], [1, 2, 9]) :=
  parse_new_roundtrip toyField (EvaluationFrame.mk [(3 : Fin 17), 5] [7, 11])
    [1, 2, 9] 2 3 rfl rfl rfl

/-- Claim C6: serialization layout — write_into leaves the target equal to its
previous contents followed by trace_at_z1, then trace_at_z2, then evaluations,
in exactly that order, with nothing inserted in between. -/
theorem write_into_layout (o : OodFrame) (target : List Nat) :
    OodFrame.write_into o target =
      target ++ (o.trace_at_z1 ++ o.trace_at_z2 ++ o.evaluations) := by
  simp [OodFrame.write_into, extend_from_slice, List.append_assoc]

/-- Claim C7: canonical encoding in the constructor — OodFrame.new fills each
region with the in-order concatenation of the fixed-width canonical encodings,
so each region's byte length is its element count times ELEMENT_BYTES. -/
theorem new_canonical_encoding {E : Type} (F : FieldCaps E)
    (f : EvaluationFrame E) (e : List E) :
    (OodFrame.new F f e).trace_at_z1 = (f.current.map F.toCanonicalBytes).flatten
    ∧ (OodFrame.new F f e).trace_at_z2 = (f.next.map F.toCanonicalBytes).flatten
    ∧ (OodFrame.new F f e).evaluations = (e.map F.toCanonicalBytes).flatten
    ∧ (OodFrame.new F f e).trace_at_z1.length
        = f.current.length * F.ELEMENT_BYTES
    ∧ (OodFrame.new F f e).trace_at_z2.length
        = f.next.length * F.ELEMENT_BYTES
    ∧ (OodFrame.new F f e).evaluations.length
        = e.length * F.ELEMENT_BYTES := by
  refine ⟨?_, ?_, ?_, ?_, ?_, ?_⟩ <;>
    simp [OodFrame.new, elements_to_canonical_bytes_eq_join,
      ← elements_to_canonical_bytes_eq_join, elements_to_canonical_bytes_length]

/-- Claim C8: populate operations commute — from the default frame, setting the
evaluation frame then the constraint evaluations gives the same state as the
opposite order; both orders succeed, and the result equals OodFrame.new. -/
theorem populate_commutes {E : Type} (F : FieldCaps E) (f : EvaluationFrame E)
    (e : List E) :
    (OodFrame.set_evaluation_frame F OodFrame.default f).bind
        (fun o => OodFrame.set_constraint_evaluations F o e)
      = some (OodFrame.new F f e)
    ∧ (OodFrame.set_constraint_evaluations F OodFrame.default e).bind
        (fun o => OodFrame.set_evaluation_frame F o f)
      = some (OodFrame.new F f e) :=
  ⟨rfl, rfl⟩

/-- Claim C9: a default-constructed OodFrame has all three byte sequences
empty, and write_into on it appends zero bytes to the target. -/
theorem default_write_into (target : List Nat) :
    OodFrame.default.trace_at_z1 = []
    ∧ OodFrame.default.trace_at_z2 = []
    ∧ OodFrame.default.evaluations = []
    ∧ OodFrame.write_into OodFrame.default target = target := by
  refine ⟨rfl, rfl, rfl, ?_⟩
  simp [OodFrame.write_into, extend_from_slice, OodFrame.default]

/-- Claim C2 counterexample: on a width-0 evaluation frame both encoded byte
sequences are empty, so a second call to set_evaluation_frame on the same
instance is accepted (it returns a result instead of being rejected),
refuting the clause that calling a setter twice is always rejected. -/
theorem set_evaluation_frame_twice_accepted :
    (OodFrame.set_evaluation_frame toyField OodFrame.default
        (EvaluationFrame.mk ([] : List (Fin 17)) [])).bind
      (fun o => OodFrame.set_evaluation_frame toyField o
        (EvaluationFrame.mk ([] : List (Fin 17)) []))
      = some OodFrame.default :=
  rfl

/-- Claim C2 (amended): set_evaluation_frame is rejected whenever trace_at_z1
or trace_at_z2 is already non-empty, and set_constraint_evaluations whenever
evaluations is non-empty; a second call to a setter is rejected whenever the
first call stored non-empty bytes, i.e. whenever the data set first was
non-empty (only a degenerate empty write can be repeated). -/
theorem set_write_once {E : Type} (F : FieldCaps E) (o : OodFrame)
    (f : EvaluationFrame E) (e : List E) :
    (o.trace_at_z1 ≠ [] ∨ o.trace_at_z2 ≠ [] →
        OodFrame.set_evaluation_frame F o f = none)
    ∧ (o.evaluations ≠ [] → OodFrame.set_constraint_evaluations F o e = none)
    ∧ (∀ o' : OodFrame, f.current ≠ [] →
        OodFrame.set_evaluation_frame F o f = some o' →
        ∀ f2 : EvaluationFrame E, OodFrame.set_evaluation_frame F o' f2 = none)
    ∧ (∀ o' : OodFrame, e ≠ [] →
        OodFrame.set_constraint_evaluations F o e = some o' →
        ∀ e2 : List E,
          OodFrame.set_constraint_evaluations F o' e2 = none) := by
  refine ⟨?_, ?_, ?_, ?_⟩
  · intro h
    rcases h with h | h
    · simp [OodFrame.set_evaluation_frame, h]
    · simp [OodFrame.set_evaluation_frame, h]
  · intro h
    simp [OodFrame.set_constraint_evaluations, h]
  · intro o' hne hset f2
    by_cases h1 : o.trace_at_z1 = []
    · by_cases h2 : o.trace_at_z2 = []
      · simp only [OodFrame.set_evaluation_frame, h1, h2, if_true,
          Option.some.injEq] at hset
        subst hset
        simp [OodFrame.set_evaluation_frame,
          elements_to_canonical_bytes_ne_nil F f.current hne]
      · simp [OodFrame.set_evaluation_frame, h1, h2] at hset
    · simp [OodFrame.set_evaluation_frame, h1] at hset
  · intro o' hne hset e2
    by_cases h1 : o.evaluations = []
    · simp only [OodFrame.set_constraint_evaluations, h1, if_true,
        Option.some.injEq] at hset
      subst hset
      simp [OodFrame.set_constraint_evaluations,
        elements_to_canonical_bytes_ne_nil F e hne]
    · simp [OodFrame.set_constraint_evaluations, h1] at hset

/-- Witness for the amended C2 at concrete inputs over the toy field. -/
theorem set_write_once_witness :
    OodFrame.set_evaluation_frame toyField (OodFrame.mk [1, 0] [] [])
        (EvaluationFrame.mk ([] : List (Fin 17)) []) = none
    ∧ OodFrame.set_constraint_evaluations toyField (OodFrame.mk [] [] [1, 0])
        ([] : List (Fin 17)) = none
    ∧ OodFrame.set_evaluation_frame toyField (OodFrame.mk [2, 0] [4, 0] [])
        (EvaluationFrame.mk [(3 : Fin 17)] [5]) = none
    ∧ OodFrame.set_constraint_evaluations toyField (OodFrame.mk [] [] [6, 0])
        [(7 : Fin 17)] = none :=
  ⟨(set_write_once toyField (OodFrame.mk [1, 0] [] [])
      (EvaluationFrame.mk [] []) []).1 (Or.inl (by decide)),
   (set_write_once toyField (OodFrame.mk [] [] [1, 0])
      (EvaluationFrame.mk [] []) []).2.1 (by decide),
   (set_write_once toyField OodFrame.default
      (EvaluationFrame.mk [(2 : Fin 17)] [4]) []).2.2.1
      (OodFrame.mk [2, 0] [4, 0] []) (by decide) rfl
      (EvaluationFrame.mk [(3 : Fin 17)] [5]),
   (set_write_once toyField OodFrame.default (EvaluationFrame.mk [] [])
      [(6 : Fin 17)]).2.2.2 (OodFrame.mk [] [] [6, 0]) (by decide) rfl
      [(7 : Fin 17)]⟩

/-- Claim C3: trace-region length mismatch — when trace_at_z1 decodes to k
elements with k different from trace_width, parse returns
WrongNumberOfOodTraceElements (trace_width, k); and when trace_at_z1 decodes
to exactly trace_width elements and trace_at_z2 decodes to k elements with k
different from trace_width, parse returns the same error for the second
region. -/
theorem parse_wrong_trace_count {E : Type} (F : FieldCaps E) (o : OodFrame)
    (w n k : Nat) :
    (∀ xs : List E, read_elements_into_vec F o.trace_at_z1 = Except.ok xs →
        xs.length = k → k ≠ w →
        OodFrame.parse F o w n =
          Except.error
            (ProofSerializationError.WrongNumberOfOodTraceElements w k))
    ∧ (∀ xs ys : List E,
        read_elements_into_vec F o.trace_at_z1 = Except.ok xs →
        xs.length = w →
        read_elements_into_vec F o.trace_at_z2 = Except.ok ys →
        ys.length = k → k ≠ w →
        OodFrame.parse F o w n =
          Except.error
            (ProofSerializationError.WrongNumberOfOodTraceElements w k)) := by
  constructor
  · intro xs h1 hk hkw
    simp [OodFrame.parse, h1, hk, hkw]
  · intro xs ys h1 h1l h2 hk hkw
    simp [OodFrame.parse, h1, h1l, h2, hk, hkw]

/-- Witness for C3 at concrete inputs over the toy field. -/
theorem parse_wrong_trace_count_witness :
    OodFrame.parse toyField (OodFrame.mk [3, 0] [] []) 2 0
      = Except.error
          (ProofSerializationError.WrongNumberOfOodTraceElements 2 1)
    ∧ OodFrame.parse toyField (OodFrame.mk [3, 0] [5, 0, 7, 0] []) 1 0
      = Except.error
          (ProofSerializationError.WrongNumberOfOodTraceElements 1 2) :=
  ⟨(parse_wrong_trace_count toyField (OodFrame.mk [3, 0] [] []) 2 0 1).1
      [(3 : Fin 17)] rfl rfl (by decide),
   (parse_wrong_trace_count toyField
      (OodFrame.mk [3, 0] [5, 0, 7, 0] []) 1 0 2).2
      [(3 : Fin 17)] [5, 7] rfl rfl rfl rfl (by decide)⟩

/-- Claim C4: evaluations-region length mismatch — when both trace regions
decode to exactly trace_width elements and the evaluations region decodes to k
elements with k different from num_evaluations, parse returns
WrongNumberOfOodEvaluationElements (num_evaluations, k). -/
theorem parse_wrong_eval_count {E : Type} (F : FieldCaps E) (o : OodFrame)
    (w n k : Nat) (xs ys zs : List E)
    (h1 : read_elements_into_vec F o.trace_at_z1 = Except.ok xs)
    (h1l : xs.length = w)
    (h2 : read_elements_into_vec F o.trace_at_z2 = Except.ok ys)
    (h2l : ys.length = w)
    (h3 : read_elements_into_vec F o.evaluations = Except.ok zs)
    (h3l : zs.length = k) (hk : k ≠ n) :
    OodFrame.parse F o w n =
      Except.error
        (ProofSerializationError.WrongNumberOfOodEvaluationElements n k) := by
  simp [OodFrame.parse, h1, h1l, h2, h2l, h3, h3l, hk]

/-- Witness for C4 at a concrete input over the toy field. -/
theorem parse_wrong_eval_count_witness :
    OodFrame.parse toyField (OodFrame.mk [3, 0] [5, 0] [7, 0]) 1 2
      = Except.error
          (ProofSerializationError.WrongNumberOfOodEvaluationElements 2 1) :=
  parse_wrong_eval_count toyField (OodFrame.mk [3, 0] [5, 0] [7, 0]) 1 2 1
    [(3 : Fin 17)] [5] [7] rfl rfl rfl rfl rfl rfl (by decide)

/-- Claim C5 counterexample: a frame whose evaluations region is undecodable
(non-canonical bytes) but whose trace_at_z1 region decodes to the wrong count
makes parse return the count error, not FailedToParseOodFrame, refuting the
clause that an undecodable region always yields FailedToParseOodFrame. -/
theorem parse_decode_failure_counterexample :
    read_elements_into_vec toyField (OodFrame.mk [] [] [17, 0]).evaluations
      = (Except.error "invalid field element bytes"
          : Except String (List (Fin 17)))
    ∧ OodFrame.parse toyField (OodFrame.mk [] [] [17, 0]) 1 1
      = Except.error
          (ProofSerializationError.WrongNumberOfOodTraceElements 1 0) :=
  ⟨rfl, rfl⟩

/-- Claim C5 (amended): if any of the three regions cannot be decoded, parse
never returns a successful result; moreover the error is FailedToParseOodFrame
carrying the decode failure description whenever every region checked earlier
in parse's fixed order decodes to the expected element count. -/
theorem parse_decode_failure {E : Type} (F : FieldCaps E) (o : OodFrame)
    (w n : Nat) (msg : String) :
    (read_elements_into_vec F o.trace_at_z1 = Except.error msg →
        OodFrame.parse F o w n =
          Except.error (ProofSerializationError.FailedToParseOodFrame msg))
    ∧ (∀ xs : List E,
        read_elements_into_vec F o.trace_at_z1 = Except.ok xs →
        xs.length = w →
        read_elements_into_vec F o.trace_at_z2 = Except.error msg →
        OodFrame.parse F o w n =
          Except.error (ProofSerializationError.FailedToParseOodFrame msg))
    ∧ (∀ xs ys : List E,
        read_elements_into_vec F o.trace_at_z1 = Except.ok xs →
        xs.length = w →
        read_elements_into_vec F o.trace_at_z2 = Except.ok ys →
        ys.length = w →
        read_elements_into_vec F o.evaluations = Except.error msg →
        OodFrame.parse F o w n =
          Except.error (ProofSerializationError.FailedToParseOodFrame msg))
    ∧ (((∃ s, read_elements_into_vec F o.trace_at_z1
            = (Except.error s : Except String (List E)))
        ∨ (∃ s, read_elements_into_vec F o.trace_at_z2
            = (Except.error s : Except String (List E)))
        ∨ (∃ s, read_elements_into_vec F o.evaluations
            = (Except.error s : Except String (List E)))) →
        ∀ r : EvaluationFrame E × List E,
          OodFrame.parse F o w n ≠ Except.ok r) := by
  refine ⟨?_, ?_, ?_, ?_⟩
  · intro h
    simp [OodFrame.parse, h]
  · intro xs h1 h1l h2
    simp [OodFrame.parse, h1, h1l, h2]
  · intro xs ys h1 h1l h2 h2l h3
    simp [OodFrame.parse, h1, h1l, h2, h2l, h3]
  · intro h r hok
    rcases hz1 : read_elements_into_vec F o.trace_at_z1 with s1 | xs
    · simp [OodFrame.parse, hz1] at hok
    · rcases hz2 : read_elements_into_vec F o.trace_at_z2 with s2 | ys
      · by_cases hxl : xs.length = w
        · simp [OodFrame.parse, hz1, hz2, hxl] at hok
        · simp [OodFrame.parse, hz1, hxl] at hok
      · rcases hz3 : read_elements_into_vec F o.evaluations with s3 | zs
        · by_cases hxl : xs.length = w
          · by_cases hyl : ys.length = w
            · simp [OodFrame.parse, hz1, hz2, hz3, hxl, hyl] at hok
            · simp [OodFrame.parse, hz1, hz2, hxl, hyl] at hok
          · simp [OodFrame.parse, hz1, hxl] at hok
        · rcases h with ⟨s, hs⟩ | ⟨s, hs⟩ | ⟨s, hs⟩
          · rw [hz1] at hs
            exact Except.noConfusion hs
          · rw [hz2] at hs
            exact Except.noConfusion hs
          · rw [hz3] at hs
            exact Except.noConfusion hs

/-- Witness for the amended C5 at concrete inputs over the toy field. -/
theorem parse_decode_failure_witness :
    OodFrame.parse toyField (OodFrame.mk [5] [] []) 0 0
      = Except.error (ProofSerializationError.FailedToParseOodFrame
          "wrong number of bytes")
    ∧ OodFrame.parse toyField (OodFrame.mk [3, 0] [17, 0] []) 1 0
      = Except.error (ProofSerializationError.FailedToParseOodFrame
          "invalid field element bytes")
    ∧ OodFrame.parse toyField (OodFrame.mk [3, 0] [5, 0] [9]) 1 0
      = Except.error (ProofSerializationError.FailedToParseOodFrame
          "wrong number of bytes")
    ∧ OodFrame.parse toyField (OodFrame.mk [3, 0] [5] []) 1 0
      ≠ Except.ok (EvaluationFrame.mk [(3 : Fin 17)] [5], []) :=
  ⟨(parse_decode_failure toyField (OodFrame.mk [5] [] []) 0 0
      "wrong number of bytes").1 rfl,
   (parse_decode_failure toyField (OodFrame.mk [3, 0] [17, 0] []) 1 0
      "invalid field element bytes").2.1 [(3 : Fin 17)] rfl rfl rfl,
   (parse_decode_failure toyField (OodFrame.mk [3, 0] [5, 0] [9]) 1 0
      "wrong number of bytes").2.2.1 [(3 : Fin 17)] [5] rfl rfl rfl rfl rfl,
   (parse_decode_failure toyField (OodFrame.mk [3, 0] [5] []) 1 0
      "wrong number of bytes").2.2.2
      (Or.inr (Or.inl ⟨"wrong number of bytes", rfl⟩))
      (EvaluationFrame.mk [(3 : Fin 17)] [5], [])⟩

/-- Claim C10: fixed error-check order in parse — the checks run in the order
trace_at_z1 decode, trace_at_z1 count, trace_at_z2 decode, trace_at_z2 count,
evaluations decode, evaluations count, the first failing check's error is
returned (so a trace-region failure masks any evaluations-region failure), and
parse succeeds exactly when every check passes. -/
theorem parse_check_order {E : Type} (F : FieldCaps E) (o : OodFrame)
    (w n : Nat) :
    (∀ msg : String,
        read_elements_into_vec F o.trace_at_z1
            = (Except.error msg : Except String (List E)) →
        OodFrame.parse F o w n =
          Except.error (ProofSerializationError.FailedToParseOodFrame msg))
    ∧ (∀ xs : List E,
        read_elements_into_vec F o.trace_at_z1 = Except.ok xs →
        xs.length ≠ w →
        OodFrame.parse F o w n =
          Except.error (ProofSerializationError.WrongNumberOfOodTraceElements
            w xs.length))
    ∧ (∀ (xs : List E) (msg : String),
        read_elements_into_vec F o.trace_at_z1 = Except.ok xs →
        xs.length = w →
        read_elements_into_vec F o.trace_at_z2 = Except.error msg →
        OodFrame.parse F o w n =
          Except.error (ProofSerializationError.FailedToParseOodFrame msg))
    ∧ (∀ xs ys : List E,
        read_elements_into_vec F o.trace_at_z1 = Except.ok xs →
        xs.length = w →
        read_elements_into_vec F o.trace_at_z2 = Except.ok ys →
        ys.length ≠ w →
        OodFrame.parse F o w n =
          Except.error (ProofSerializationError.WrongNumberOfOodTraceElements
            w ys.length))
    ∧ (∀ (xs ys : List E) (msg : String),
        read_elements_into_vec F o.trace_at_z1 = Except.ok xs →
        xs.length = w →
        read_elements_into_vec F o.trace_at_z2 = Except.ok ys →
        ys.length = w →
        read_elements_into_vec F o.evaluations = Except.error msg →
        OodFrame.parse F o w n =
          Except.error (ProofSerializationError.FailedToParseOodFrame msg))
    ∧ (∀ xs ys zs : List E,
        read_elements_into_vec F o.trace_at_z1 = Except.ok xs →
        xs.length = w →
        read_elements_into_vec F o.trace_at_z2 = Except.ok ys →
        ys.length = w →
        read_elements_into_vec F o.evaluations = Except.ok zs →
        zs.length ≠ n →
        OodFrame.parse F o w n =
          Except.error
            (ProofSerializationError.WrongNumberOfOodEvaluationElements
              n zs.length))
    ∧ (∀ xs ys zs : List E,
        read_elements_into_vec F o.trace_at_z1 = Except.ok xs →
        xs.length = w →
        read_elements_into_vec F o.trace_at_z2 = Except.ok ys →
        ys.length = w →
        read_elements_into_vec F o.evaluations = Except.ok zs →
        zs.length = n →
        OodFrame.parse F o w n
          = Except.ok (EvaluationFrame.mk xs ys, zs)) := by
  refine ⟨?_, ?_, ?_, ?_, ?_, ?_, ?_⟩
  · intro msg h
    simp [OodFrame.parse, h]
  · intro xs h1 hxl
    simp [OodFrame.parse, h1, hxl]
  · intro xs msg h1 h1l h2
    simp [OodFrame.parse, h1, h1l, h2]
  · intro xs ys h1 h1l h2 hyl
    simp [OodFrame.parse, h1, h1l, h2, hyl]
  · intro xs ys msg h1 h1l h2 h2l h3
    simp [OodFrame.parse, h1, h1l, h2, h2l, h3]
  · intro xs ys zs h1 h1l h2 h2l h3 hzl
    simp [OodFrame.parse, h1, h1l, h2, h2l, h3, hzl]
  · intro xs ys zs h1 h1l h2 h2l h3 h3l
    simp [OodFrame.parse, h1, h1l, h2, h2l, h3, h3l]

/-- Witness for C10 at concrete inputs over the toy field; in the second
conjunct both the trace count and the evaluations region are bad and the
trace-region error is returned. -/
theorem parse_check_order_witness :
    OodFrame.parse toyField (OodFrame.mk [9] [] []) 0 0
      = Except.error (ProofSerializationError.FailedToParseOodFrame
          "wrong number of bytes")
    ∧ OodFrame.parse toyField (OodFrame.mk [3, 0] [] [17, 0]) 2 1
      = Except.error
          (ProofSerializationError.WrongNumberOfOodTraceElements 2 1)
    ∧ OodFrame.parse toyField (OodFrame.mk [4, 0] [6, 0] [8, 0, 10, 0]) 1 2
      = Except.ok (EvaluationFrame.mk [(4 : Fin 17)] [6], [8, 10]) :=
  ⟨(parse_check_order toyField (OodFrame.mk [9] [] []) 0 0).1
      "wrong number of bytes" rfl,
   (parse_check_order toyField (OodFrame.mk [3, 0] [] [17, 0]) 2 1).2.1
      [(3 : Fin 17)] rfl (by decide),
   (parse_check_order toyField
      (OodFrame.mk [4, 0] [6, 0] [8, 0, 10, 0]) 1 2).2.2.2.2.2.2
      [(4 : Fin 17)] [6] [8, 10] rfl rfl rfl rfl rfl rfl⟩
